import Mathlib

/-!
# Shallow embedding of qibullet's ROS wrapper (`qibullet/ros_wrapper.py`)

The Python module is a glue layer between a simulated Pepper robot
(`virtual_pepper`, a `PepperVirtual` instance backed by pybullet) and the ROS
publish/subscribe bus.  We embed it as pure Lean functions:

* incoming-message callbacks become functions from a message value to the list
  of calls they issue on the simulator's control API (`SimCall`);
* the periodic publishing methods become functions from a snapshot of the
  simulator's observable state (`SimState`) to the list of messages published
  on that tick (`Output`);
* the spin loop becomes a recursion over a finite list of per-iteration
  observations (the termination-flag value read by the `while` condition, and
  whether the loop body raised on that iteration);
* `raise` / `try` / `except` becomes `Except` with explicit handler matches
  mirroring the source's handler clauses.

External collaborators (pybullet's quaternion conversions, the base
controller's velocity constants) are parameters of the embedding, since their
code is outside this module.
-/

namespace QiBullet

/-- A 3-vector message field (`geometry_msgs/Vector3`), used by `Twist`. -/
structure Vector3 where
  x : ℚ
  y : ℚ
  z : ℚ
  deriving DecidableEq, Repr

/-- ROS `geometry_msgs/Twist` message: the payload of `/cmd_vel`. -/
structure Twist where
  linear : Vector3
  angular : Vector3
  deriving DecidableEq, Repr

/-- ROS `naoqi_bridge_msgs/JointAnglesWithSpeed` message: the payload of
`/joint_angles`.  Only the fields read by `_jointAnglesCallback` are modelled. -/
structure JointAnglesWithSpeed where
  joint_names : List String
  joint_angles : List ℚ
  speed : ℚ
  speeds : List ℚ
  deriving DecidableEq, Repr

/-- A 3-D point message field. -/
structure Point3 where
  x : ℚ
  y : ℚ
  z : ℚ
  deriving DecidableEq, Repr

/-- A quaternion message field (x, y, z, w). -/
structure QuatMsg where
  x : ℚ
  y : ℚ
  z : ℚ
  w : ℚ
  deriving DecidableEq, Repr

/-- A pose message field: position plus orientation. -/
structure PoseMsg where
  position : Point3
  orientation : QuatMsg
  deriving DecidableEq, Repr

/-- A stamped pose message field (the header is irrelevant to the wrapper). -/
structure PoseStamped where
  pose : PoseMsg
  deriving DecidableEq, Repr

/-- ROS `naoqi_bridge_msgs/PoseStampedWithSpeed` message: the payload of
`/move_base_simple/goal`.  Only the fields read by `_moveToCallback` are
modelled. -/
structure PoseStampedWithSpeed where
  pose_stamped : PoseStamped
  speed_percentage : ℚ
  referenceFrame : Int
  deriving DecidableEq, Repr

/-- ROS `std_msgs/Empty` message: the payload of `/move_base_simple/cancel`. -/
structure EmptyMsg where
  deriving DecidableEq, Repr

/-- A quaternion as returned by `pybullet.getQuaternionFromEuler`
(x, y, z, w components). -/
abbrev Quat := ℚ × ℚ × ℚ × ℚ

/-- The pybullet functions the wrapper calls, kept abstract: their code lives
in the pybullet library, outside this module.  `getEulerZFromQuaternion`
models `pybullet.getEulerFromQuaternion(...)[-1]` (the yaw component). -/
structure PyBullet where
  getQuaternionFromEuler : ℚ × ℚ × ℚ → Quat
  getEulerZFromQuaternion : Quat → ℚ

/-- Modelled from the spec: `PepperBaseController` exposes the
`MAX_LINEAR_VELOCITY` and `MIN_LINEAR_VELOCITY` constants used by
`_moveToCallback`; `base_controller.py` is not under `src/`, so the two
constants are kept abstract as parameters. -/
structure PepperBaseController where
  MAX_LINEAR_VELOCITY : ℚ
  MIN_LINEAR_VELOCITY : ℚ

/-- The velocity argument forwarded to `virtual_pepper.setAngles`: either the
scalar `msg.speed` or the list `msg.speeds` (a Python value that is either a
float or a list of floats). -/
inductive Velocity
  | scalar (v : ℚ)
  | list (vs : List ℚ)
  deriving DecidableEq, Repr

/-- A call into the simulator's control API (`virtual_pepper`).  `moveTo`
records the keyword arguments actually passed at each call site: `frame` and
`speed` are `none` when the call site omits them (`_killMoveCallback` passes
only `_async=True`). -/
inductive SimCall
  | move (vx vy wz : ℚ)
  | setAngles (jointNames : List String) (jointAngles : List ℚ) (velocity : Velocity)
  | moveTo (x y theta : ℚ) (frame : Option Int) (speed : Option ℚ) (async : Bool)
  deriving DecidableEq, Repr

/-- `_velocityCallback`: forwards a `/cmd_vel` Twist into
`virtual_pepper.move(msg.linear.x, msg.linear.y, msg.angular.z)`. -/
def velocityCallback (msg : Twist) : List SimCall :=
  [SimCall.move msg.linear.x msg.linear.y msg.angular.z]

/-- `_jointAnglesCallback`: forwards a `/joint_angles` message into
`virtual_pepper.setAngles(joint_list, position_list, velocity)`, where
`velocity` is `list(msg.speeds)` when `len(msg.speeds) != 0` and `msg.speed`
otherwise. -/
def jointAnglesCallback (msg : JointAnglesWithSpeed) : List SimCall :=
  let joint_list := msg.joint_names
  let position_list := msg.joint_angles
  let velocity :=
    if msg.speeds.length ≠ 0 then Velocity.list msg.speeds
    else Velocity.scalar msg.speed
  [SimCall.setAngles joint_list position_list velocity]

/-- `_moveToCallback`: forwards a `/move_base_simple/goal` message into
`virtual_pepper.moveTo(x, y, theta, frame=frame, speed=speed, _async=True)`,
with `theta` the yaw of the goal orientation and
`speed = msg.speed_percentage * MAX_LINEAR_VELOCITY + MIN_LINEAR_VELOCITY`. -/
def moveToCallback (pb : PyBullet) (bc : PepperBaseController)
    (msg : PoseStampedWithSpeed) : List SimCall :=
  let x := msg.pose_stamped.pose.position.x
  let y := msg.pose_stamped.pose.position.y
  let theta := pb.getEulerZFromQuaternion
    (msg.pose_stamped.pose.orientation.x,
     msg.pose_stamped.pose.orientation.y,
     msg.pose_stamped.pose.orientation.z,
     msg.pose_stamped.pose.orientation.w)
  let speed := msg.speed_percentage * bc.MAX_LINEAR_VELOCITY
    + bc.MIN_LINEAR_VELOCITY
  let frame := msg.referenceFrame
  [SimCall.moveTo x y theta (some frame) (some speed) true]

/-- `_killMoveCallback`: forwards a `/move_base_simple/cancel` message into
`virtual_pepper.moveTo(0, 0, 0, _async=True)`. -/
def killMoveCallback (_msg : EmptyMsg) : List SimCall :=
  [SimCall.moveTo 0 0 0 none none true]

/-- Identifier of a Pepper camera.  Modelled from the spec:
`PepperVirtual.ID_CAMERA_TOP`, `ID_CAMERA_BOTTOM` and `ID_CAMERA_DEPTH`
(`pepper_virtual.py` is not under `src/`); the virtual Pepper's active camera,
when one exists, is one of its three cameras, so the identifier is a
three-valued type. -/
inductive CameraId
  | top
  | bottom
  | depth
  deriving DecidableEq, Repr

/-- Snapshot of the active camera as read through `getActiveCamera`: the
current frame (a token for the pixel data, `none` when `getFrame()` is None),
the camera link name, the resolution, the intrinsics list and the camera id. -/
structure CameraState where
  frame : Option Nat
  linkName : String
  width : Nat
  height : Nat
  intrinsics : List ℚ
  cameraId : CameraId

/-- A planar base pose as returned by `virtual_pepper.getPosition()`. -/
structure Pose2D where
  x : ℚ
  y : ℚ
  theta : ℚ
  deriving DecidableEq, Repr

/-- Snapshot of everything the wrapper reads from the simulator on one tick.
Laser value fields are `none` when the corresponding getter does not return a
Python list (the callbacks guard with `isinstance(..., list)`);
`anglesPosition` models `getAnglesPosition`, `baseLinearVel`/`baseAngularVel`
model `pybullet.getBaseVelocity` on the robot model. -/
structure SimState where
  jointDict : List String
  anglesPosition : List String → List ℚ
  laserActive : Bool
  rightLaser : Option (List ℚ)
  frontLaser : Option (List ℚ)
  leftLaser : Option (List ℚ)
  position : Pose2D
  baseLinearVel : Vector3
  baseAngularVel : Vector3
  activeCamera : Option CameraState

/-- ROS `sensor_msgs/JointState` message as built by `_getJointStateMsg`. -/
structure JointStateMsg where
  name : List String
  position : List ℚ
  deriving DecidableEq, Repr

/-- ROS `sensor_msgs/LaserScan` message as built by `_updateLasers`. -/
structure LaserScanMsg where
  frameId : String
  angle_min : ℚ
  angle_max : ℚ
  angle_increment : ℚ
  range_min : ℚ
  range_max : ℚ
  ranges : List ℚ
  deriving DecidableEq, Repr

/-- ROS `geometry_msgs/TransformStamped` message as built by
`_broadcastOdom` for the odom -> base_link transform. -/
structure TransformStampedMsg where
  frameId : String
  childFrameId : String
  tx : ℚ
  ty : ℚ
  tz : ℚ
  rotation : Quat
  deriving DecidableEq, Repr

/-- ROS `nav_msgs/Odometry` message as built by `_broadcastOdom`. -/
structure OdometryMsg where
  frameId : String
  childFrameId : String
  px : ℚ
  py : ℚ
  pz : ℚ
  orientation : Quat
  vx : ℚ
  vy : ℚ
  wz : ℚ
  deriving DecidableEq, Repr

/-- ROS `sensor_msgs/Image` message as built by `_broadcastCamera`: the frame
token stands for the cv2 image converted by the bridge. -/
structure ImageMsg where
  frameId : String
  encoding : String
  data : Nat
  deriving DecidableEq, Repr

/-- ROS `sensor_msgs/CameraInfo` message as built by `_broadcastCamera`. -/
structure CameraInfoMsg where
  frameId : String
  distortion_model : String
  width : Nat
  height : Nat
  D : List ℚ
  K : List ℚ
  R : List ℚ
  P : List ℚ
  deriving DecidableEq, Repr

/-- One message published by the wrapper on a tick; camera messages carry the
publisher (front, bottom or depth topic pair) they go out on. -/
inductive Output
  | jointState (msg : JointStateMsg)
  | laserScan (msg : LaserScanMsg)
  | odomTf (msg : TransformStampedMsg)
  | odom (msg : OdometryMsg)
  | image (cam : CameraId) (msg : ImageMsg)
  | cameraInfo (cam : CameraId) (msg : CameraInfoMsg)
  deriving DecidableEq, Repr

/-- `_getJointStateMsg`: names are the simulator's `joint_dict` keys followed
by the three wheel names; positions are `getAnglesPosition` on those keys
followed by three zeros. -/
def getJointStateMsg (s : SimState) : JointStateMsg :=
  let names := s.jointDict
  let positions := s.anglesPosition names
  { name := names ++ ["WheelFL", "WheelFR", "WheelB"],
    position := positions ++ [0, 0, 0] }

/-- The ranges list assembled by `_updateLasers`: each laser segment that came
back as a list contributes its reversed values, the right and front segments
each followed by eight `-1` blind-zone fillers. -/
def laserRanges (s : SimState) : List ℚ :=
  (match s.rightLaser with
   | some r => r.reverse ++ List.replicate 8 (-1)
   | none => []) ++
  (match s.frontLaser with
   | some f => f.reverse ++ List.replicate 8 (-1)
   | none => []) ++
  (match s.leftLaser with
   | some l => l.reverse
   | none => [])

/-- The LaserScan message built by `_updateLasers`: the fixed scan geometry
constants of the source (a 240 degree field of view split over 61 points)
and the assembled `laserRanges`. -/
def laserScanMsgOf (s : SimState) : LaserScanMsg :=
  { frameId := "base_footprint",
    angle_min := -2.0944,
    angle_max := 2.0944,
    angle_increment := (2 * 2.0944) / (15.0 + 15.0 + 15.0 + 8.0 + 8.0),
    range_min := 0.1,
    range_max := 3.0,
    ranges := laserRanges s }

/-- `_updateLasers`: publishes nothing when the laser manager is inactive,
otherwise publishes one LaserScan built from the simulator's laser values. -/
def updateLasers (s : SimState) : List Output :=
  if s.laserActive = false then []
  else [Output.laserScan (laserScanMsgOf s)]

/-- The odom -> base_link transform built by `_broadcastOdom` from the base
position. -/
def odomTransformMsg (pb : PyBullet) (s : SimState) : TransformStampedMsg :=
  { frameId := "odom",
    childFrameId := "base_link",
    tx := s.position.x,
    ty := s.position.y,
    tz := 0,
    rotation := pb.getQuaternionFromEuler (0, 0, s.position.theta) }

/-- The Odometry message built by `_broadcastOdom` from the base position and
`pybullet.getBaseVelocity`. -/
def odometryMsg (pb : PyBullet) (s : SimState) : OdometryMsg :=
  { frameId := "odom",
    childFrameId := "base_link",
    px := s.position.x,
    py := s.position.y,
    pz := 0,
    orientation := (odomTransformMsg pb s).rotation,
    vx := s.baseLinearVel.x,
    vy := s.baseLinearVel.y,
    wz := s.baseAngularVel.z }

/-- `_broadcastOdom`: broadcasts the odom transform, then publishes the
Odometry message. -/
def broadcastOdom (pb : PyBullet) (s : SimState) : List Output :=
  [Output.odomTf (odomTransformMsg pb s), Output.odom (odometryMsg pb s)]

/-- Python `list.insert(i, a)`: inserts before index `i`, appending when `i`
is past the end. -/
def pyInsert (a : α) : Nat → List α → List α
  | _, [] => [a]
  | 0, l => a :: l
  | n + 1, x :: xs => x :: pyInsert a n xs

/-- The Image message built by `_broadcastCamera` for a camera with a frame:
the encoding is bgr8 for the two RGB cameras and 16UC1 for the depth
camera. -/
def cameraImageMsg (c : CameraState) (f : Nat) : ImageMsg :=
  { frameId := c.linkName,
    encoding :=
      match c.cameraId with
      | CameraId.top => "bgr8"
      | CameraId.bottom => "bgr8"
      | CameraId.depth => "16UC1",
    data := f }

/-- The CameraInfo message built by `_broadcastCamera`: P is K with zeros
inserted at indices 3 and 7 and one appended. -/
def cameraInfoMsg (c : CameraState) : CameraInfoMsg :=
  { frameId := c.linkName,
    distortion_model := "plumb_bob",
    width := c.width,
    height := c.height,
    D := [0, 0, 0, 0, 0],
    K := c.intrinsics,
    R := [1, 0, 0, 0, 1, 0, 0, 0, 1],
    P := pyInsert 0 7 (pyInsert 0 3 c.intrinsics) ++ [0] }

/-- Exceptions of the embedded Python fragments: assertion failures, IO
errors and any other exception (with its message). -/
inductive PyExn
  | assertionError
  | ioError (msg : String)
  | otherError (msg : String)
  deriving DecidableEq, Repr

/-- The body of `_broadcastCamera` up to its publishes: raises AssertionError
when there is no active camera or the active camera has no frame, otherwise
returns the image/info pair for the active camera's publisher. -/
def broadcastCameraAsserts (s : SimState) : Except PyExn (List Output) :=
  match s.activeCamera with
  | none => Except.error PyExn.assertionError
  | some c =>
    match c.frame with
    | none => Except.error PyExn.assertionError
    | some f =>
      Except.ok [Output.image c.cameraId (cameraImageMsg c f),
                 Output.cameraInfo c.cameraId (cameraInfoMsg c)]

/-- `_broadcastCamera`: the AssertionError handler swallows the assertion
failures (the only exceptions the modelled body produces), publishing
nothing. -/
def broadcastCamera (s : SimState) : List Output :=
  match broadcastCameraAsserts s with
  | Except.ok msgs => msgs
  | Except.error _ => []

/-- One iteration of the `_spin` body after the sleep: publish the joint
state, the laser scan, the odometry and the active camera frame. -/
def spinTick (pb : PyBullet) (s : SimState) : List Output :=
  Output.jointState (getJointStateMsg s)
    :: (updateLasers s ++ broadcastOdom pb s ++ broadcastCamera s)

/-- An observable event of one spin iteration: the rate sleep, a publish, or
a console print. -/
inductive Event
  | sleep
  | pub (o : Output)
  | printed (msg : String)
  deriving DecidableEq, Repr

/-- What happens when the spin body runs on one iteration: either the
simulator snapshot it reads (the body completes), or the body raises an
exception with the given message. -/
inductive TickObs
  | ok (s : SimState)
  | raises (msg : String)

/-- One completed iteration of `_spin`: `rate.sleep()` first, then the four
publish steps. -/
def spinIter (pb : PyBullet) (s : SimState) : List Event :=
  Event.sleep :: (spinTick pb s).map Event.pub

/-- The events of one iteration given its observation: a raising body yields
the sleep followed by the handler's print (`except Exception` at the bottom
of `_spin`). -/
def spinIterObs (pb : PyBullet) : TickObs → List Event
  | TickObs.ok s => spinIter pb s
  | TickObs.raises m =>
    [Event.sleep, Event.printed ("Stopping the ROS wrapper: " ++ m)]

/-- The `_spin` loop over a finite list of per-iteration observations, each
pairing the `_wrapper_termination` value read by the `while` condition with
the body's behaviour.  A `true` flag ends the loop before the body runs; a
raising body is caught by the `except Exception` handler, which prints and
ends the loop.  The result is the list of per-iteration event batches. -/
def spinLoopBatches (pb : PyBullet) : List (Bool × TickObs) → List (List Event)
  | [] => []
  | (flag, o) :: rest =>
    if flag then []
    else
      match o with
      | TickObs.ok s => spinIter pb s :: spinLoopBatches pb rest
      | TickObs.raises m =>
        [[Event.sleep, Event.printed ("Stopping the ROS wrapper: " ++ m)]]

/-- The error raised by `pybullet.error(msg)`. -/
structure PyError where
  msg : String
  deriving DecidableEq, Repr

/-- The wrapper's `spin_thread` attribute once set: whether the stored value
is a `Thread` instance and whether `isAlive()` holds. -/
structure ThreadHandle where
  isThreadInstance : Bool
  isAlive : Bool
  deriving DecidableEq, Repr

/-- The instance state of `RosWrapper` that the lifecycle operations touch:
`spin_thread` (None until a launch succeeds), the `_wrapper_termination`
flag, and whether a roslauncher was created. -/
structure WrapperState where
  spinThread : Option ThreadHandle
  wrapperTermination : Bool
  roslauncher : Bool
  deriving DecidableEq, Repr

/-- `RosWrapper.__init__`: raises `pybullet.error(MISSING_IMPORT)` when the
ROS-stack import failed at module load, before touching any instance state;
otherwise initialises the instance attributes. -/
def rosWrapperInit (missingImport : Option String) : Except PyError WrapperState :=
  match missingImport with
  | some m => Except.error { msg := m }
  | none =>
    Except.ok { spinThread := none, wrapperTermination := false, roslauncher := false }

/-- Direction of a topic wired in `launchWrapper`. -/
inductive TopicDir
  | advertised
  | subscribed
  deriving DecidableEq, Repr

/-- A topic wired in `launchWrapper`: its full name, direction and message
type name. -/
structure TopicDecl where
  name : String
  dir : TopicDir
  msgType : String
  deriving DecidableEq, Repr

/-- The topics `launchWrapper` wires, in source order: nine publishers then
four subscriptions.  Camera and laser topics are prefixed with the given ROS
namespace; the remaining names are fixed strings. -/
def wrapperTopics (ros_namespace : String) : List TopicDecl :=
  [{ name := ros_namespace ++ "/camera/front/image_raw",
     dir := TopicDir.advertised, msgType := "Image" },
   { name := ros_namespace ++ "/camera/front/camera_info",
     dir := TopicDir.advertised, msgType := "CameraInfo" },
   { name := ros_namespace ++ "/camera/bottom/image_raw",
     dir := TopicDir.advertised, msgType := "Image" },
   { name := ros_namespace ++ "/camera/bottom/camera_info",
     dir := TopicDir.advertised, msgType := "CameraInfo" },
   { name := ros_namespace ++ "/camera/depth/image_raw",
     dir := TopicDir.advertised, msgType := "Image" },
   { name := ros_namespace ++ "/camera/depth/camera_info",
     dir := TopicDir.advertised, msgType := "CameraInfo" },
   { name := ros_namespace ++ "/laser",
     dir := TopicDir.advertised, msgType := "LaserScan" },
   { name := "/joint_states",
     dir := TopicDir.advertised, msgType := "JointState" },
   { name := "odom",
     dir := TopicDir.advertised, msgType := "Odometry" },
   { name := "/joint_angles",
     dir := TopicDir.subscribed, msgType := "JointAnglesWithSpeed" },
   { name := "/cmd_vel",
     dir := TopicDir.subscribed, msgType := "Twist" },
   { name := "/move_base_simple/goal",
     dir := TopicDir.subscribed, msgType := "PoseStampedWithSpeed" },
   { name := "/move_base_simple/cancel",
     dir := TopicDir.subscribed, msgType := "Empty" }]

/-- `PepperRosWrapper.launchWrapper`: raises `pybullet.error(MISSING_IMPORT)`
first when the ROS-stack import failed, before any instance state changes;
otherwise wires the topics, and in the final try block either stops at an
IOError (robot description unavailable: print and return without starting
the spin thread) or creates the roslauncher, clears the termination flag and
starts the spin thread.  The result carries the new instance state, the
wired topics and the printed lines. -/
def launchWrapper (missingImport : Option String) (ioFailure : Option String)
    (s : WrapperState) (ros_namespace : String) :
    Except PyError (WrapperState × List TopicDecl × List String) :=
  match missingImport with
  | some m => Except.error { msg := m }
  | none =>
    let topics := wrapperTopics ros_namespace
    match ioFailure with
    | some m =>
      Except.ok (s, topics, ["Could not retrieve robot descrition: " ++ m])
    | none =>
      Except.ok
        ({ s with
            roslauncher := true,
            wrapperTermination := false,
            spinThread := some { isThreadInstance := true, isAlive := true } },
         topics, [])

/-- An action taken by `stopWrapper` after setting the termination flag. -/
inductive StopAction
  | joinThread
  | stopLauncher
  deriving DecidableEq, Repr

/-- The three assertions guarding the join in `stopWrapper`: the thread
attribute is not None, is a `Thread` instance, and is alive; a failing
assertion raises AssertionError and later assertions are not evaluated. -/
def joinAsserts (s : WrapperState) : Except PyExn Unit :=
  match s.spinThread with
  | none => Except.error PyExn.assertionError
  | some t =>
    if t.isThreadInstance = false then Except.error PyExn.assertionError
    else if t.isAlive = false then Except.error PyExn.assertionError
    else Except.ok ()

/-- `RosWrapper.stopWrapper`: sets `_wrapper_termination`, joins the spin
thread when the three assertions pass (the AssertionError handler swallows a
failure and skips the join), then stops the roslauncher and prints exactly
when one was created.  Returns the new state, the actions taken in order and
the printed lines. -/
def stopWrapper (s : WrapperState) : WrapperState × List StopAction × List String :=
  let s1 := { s with wrapperTermination := true }
  let joinActs :=
    match joinAsserts s1 with
    | Except.ok _ => [StopAction.joinThread]
    | Except.error _ => []
  if s1.roslauncher then
    (s1, joinActs ++ [StopAction.stopLauncher], ["stopping roslauncher"])
  else
    (s1, joinActs, [])

end QiBullet

namespace QiBullet

/-- C1: every command message received on a subscribed topic is forwarded into
the simulator's control API as exactly one call: a Twist on `/cmd_vel` yields
exactly `move(linear.x, linear.y, angular.z)`; a JointAnglesWithSpeed yields
exactly one `setAngles(joint_names, joint_angles, velocity)`; a
PoseStampedWithSpeed yields exactly one asynchronous
`moveTo(x, y, theta, frame, speed)` with
`speed = speed_percentage * MAX_LINEAR_VELOCITY + MIN_LINEAR_VELOCITY`; an
Empty on the cancel topic yields exactly `moveTo(0, 0, 0, _async=True)`. -/
theorem callbacks_forward_each_command (pb : PyBullet) (bc : PepperBaseController)
    (tw : Twist) (ja : JointAnglesWithSpeed) (ps : PoseStampedWithSpeed)
    (e : EmptyMsg) :
    velocityCallback tw = [SimCall.move tw.linear.x tw.linear.y tw.angular.z]
    ∧ (∃ v, jointAnglesCallback ja
        = [SimCall.setAngles ja.joint_names ja.joint_angles v])
    ∧ moveToCallback pb bc ps
      = [SimCall.moveTo ps.pose_stamped.pose.position.x
          ps.pose_stamped.pose.position.y
          (pb.getEulerZFromQuaternion
            (ps.pose_stamped.pose.orientation.x,
             ps.pose_stamped.pose.orientation.y,
             ps.pose_stamped.pose.orientation.z,
             ps.pose_stamped.pose.orientation.w))
          (some ps.referenceFrame)
          (some (ps.speed_percentage * bc.MAX_LINEAR_VELOCITY
            + bc.MIN_LINEAR_VELOCITY))
          true]
    ∧ killMoveCallback e = [SimCall.moveTo 0 0 0 none none true] :=
  ⟨rfl, ⟨_, rfl⟩, rfl, rfl⟩

/-- C9: the velocity forwarded to `setAngles` is the list `msg.speeds` when
that list is non-empty and the scalar `msg.speed` otherwise, always inside a
single `setAngles` call. -/
theorem jointAngles_velocity_selection (ja : JointAnglesWithSpeed) :
    (ja.speeds ≠ [] →
      jointAnglesCallback ja
        = [SimCall.setAngles ja.joint_names ja.joint_angles
            (Velocity.list ja.speeds)])
    ∧ (ja.speeds = [] →
      jointAnglesCallback ja
        = [SimCall.setAngles ja.joint_names ja.joint_angles
            (Velocity.scalar ja.speed)]) := by
  constructor
  · intro h
    simp [jointAnglesCallback, List.length_eq_zero, h]
  · intro h
    simp [jointAnglesCallback, h]

/-- Closed-form witness for `jointAngles_velocity_selection` at two concrete
messages, one with a non-empty speeds list and one without. -/
theorem jointAngles_velocity_selection_witness :
    jointAnglesCallback ⟨["HeadYaw"], [1/2], 1/4, [3/4]⟩
      = [SimCall.setAngles ["HeadYaw"] [1/2] (Velocity.list [3/4])]
    ∧ jointAnglesCallback ⟨["HeadYaw"], [1/2], 1/4, []⟩
      = [SimCall.setAngles ["HeadYaw"] [1/2] (Velocity.scalar (1/4))] :=
  ⟨(jointAngles_velocity_selection ⟨["HeadYaw"], [1/2], 1/4, [3/4]⟩).1 (by decide),
   (jointAngles_velocity_selection ⟨["HeadYaw"], [1/2], 1/4, []⟩).2 rfl⟩

/-- A concrete pybullet stub for evaluating the embedding on closed inputs. -/
def pbFix : PyBullet :=
  { getQuaternionFromEuler := fun _ => (0, 0, 0, 1),
    getEulerZFromQuaternion := fun q => q.2.2.1 }

/-- A concrete active camera with a frame. -/
def camFix : CameraState :=
  { frame := some 7,
    linkName := "CameraTop_optical_frame",
    width := 640,
    height := 480,
    intrinsics := [525, 0, 319, 0, 525, 239, 0, 0, 1],
    cameraId := CameraId.top }

/-- A concrete simulator snapshot with an active laser and an active camera. -/
def simFix : SimState :=
  { jointDict := ["HeadYaw", "HeadPitch"],
    anglesPosition := fun names => names.map (fun _ => 1/2),
    laserActive := true,
    rightLaser := some [1, 2],
    frontLaser := some [3],
    leftLaser := none,
    position := { x := 1, y := 2, theta := 3 },
    baseLinearVel := { x := 4, y := 5, z := 6 },
    baseAngularVel := { x := 7, y := 8, z := 9 },
    activeCamera := some camFix }

/-- A concrete simulator snapshot with no active laser and no active camera. -/
def simQuiet : SimState :=
  { jointDict := ["KneePitch"],
    anglesPosition := fun names => names.map (fun _ => 0),
    laserActive := false,
    rightLaser := none,
    frontLaser := none,
    leftLaser := none,
    position := { x := 0, y := 0, theta := 0 },
    baseLinearVel := { x := 0, y := 0, z := 0 },
    baseAngularVel := { x := 0, y := 0, z := 0 },
    activeCamera := none }

/-- A concrete wrapper state after a successful launch. -/
def wsFix : WrapperState :=
  { spinThread := some { isThreadInstance := true, isAlive := true },
    wrapperTermination := false,
    roslauncher := true }

/-- C10: every JointState built by `_getJointStateMsg` has as many names as
positions, provided `getAnglesPosition` returns one position per requested
joint; the names are the joint_dict keys followed by exactly the three wheel
names, and the positions are the returned joint positions followed by exactly
three zeros. -/
theorem jointState_name_position_agree (s : SimState)
    (h : (s.anglesPosition s.jointDict).length = s.jointDict.length) :
    (getJointStateMsg s).name.length = (getJointStateMsg s).position.length
    ∧ (getJointStateMsg s).name = s.jointDict ++ ["WheelFL", "WheelFR", "WheelB"]
    ∧ (getJointStateMsg s).position = s.anglesPosition s.jointDict ++ [0, 0, 0] := by
  refine ⟨?_, rfl, rfl⟩
  simp [getJointStateMsg, h]

/-- Closed-form witness for `jointState_name_position_agree` at a concrete
snapshot. -/
theorem jointState_name_position_agree_witness :
    (simFix.anglesPosition simFix.jointDict).length = simFix.jointDict.length
    ∧ (getJointStateMsg simFix).name.length
      = (getJointStateMsg simFix).position.length :=
  ⟨rfl, (jointState_name_position_agree simFix rfl).1⟩

/-- C6: the wired topic names are fixed: the six camera topics and the laser
topic are the ROS namespace followed by a constant suffix, and the remaining
six topics are fixed strings independent of the namespace; `launchWrapper`
wires exactly `wrapperTopics` whenever the ROS imports are present. -/
theorem wrapper_topics_fixed (ns : String) :
    (wrapperTopics ns).map TopicDecl.name
      = [ns ++ "/camera/front/image_raw", ns ++ "/camera/front/camera_info",
         ns ++ "/camera/bottom/image_raw", ns ++ "/camera/bottom/camera_info",
         ns ++ "/camera/depth/image_raw", ns ++ "/camera/depth/camera_info",
         ns ++ "/laser", "/joint_states", "odom", "/joint_angles", "/cmd_vel",
         "/move_base_simple/goal", "/move_base_simple/cancel"]
    ∧ ((wrapperTopics ns).drop 7).map TopicDecl.name
      = ((wrapperTopics "").drop 7).map TopicDecl.name
    ∧ (∀ io s, ∃ r, launchWrapper none io s ns = Except.ok r
        ∧ r.2.1 = wrapperTopics ns) := by
  refine ⟨rfl, rfl, ?_⟩
  intro io s
  cases io with
  | none => exact ⟨_, rfl, rfl⟩
  | some m => exact ⟨_, rfl, rfl⟩

/-- C8: when the ROS-stack import failed at module load, both the constructor
and `launchWrapper` raise a `pybullet.error` carrying the import-error
message; in the embedding the error is returned before any instance state is
produced or modified. -/
theorem missing_import_raises (mi : Option String) (io : Option String)
    (s : WrapperState) (ns : String) (h : mi ≠ none) :
    ∃ m, mi = some m
      ∧ rosWrapperInit mi = Except.error { msg := m }
      ∧ launchWrapper mi io s ns = Except.error { msg := m } := by
  cases mi with
  | none => exact absurd rfl h
  | some m => exact ⟨m, rfl, rfl, rfl⟩

/-- Closed-form witness for `missing_import_raises` at a concrete
missing-module message. -/
theorem missing_import_raises_witness :
    rosWrapperInit (some "No module named rospy")
      = Except.error { msg := "No module named rospy" }
    ∧ launchWrapper (some "No module named rospy") none wsFix "/pepper"
      = Except.error { msg := "No module named rospy" } := by
  obtain ⟨m, hm, h1, h2⟩ :=
    missing_import_raises (some "No module named rospy") none wsFix "/pepper"
      (by simp)
  injection hm with hm
  subst hm
  exact ⟨h1, h2⟩

/-- C5: `stopWrapper` always sets the termination flag, joins the spin thread
exactly when it exists, is a Thread and is alive (otherwise the join is
skipped without error), and stops the roslauncher, as the last action, exactly
when one was created. -/
theorem stopWrapper_flag_join_launcher (s : WrapperState) :
    (stopWrapper s).1.wrapperTermination = true
    ∧ (StopAction.joinThread ∈ (stopWrapper s).2.1 ↔
        ∃ t, s.spinThread = some t
          ∧ t.isThreadInstance = true ∧ t.isAlive = true)
    ∧ (StopAction.stopLauncher ∈ (stopWrapper s).2.1 ↔ s.roslauncher = true)
    ∧ (s.roslauncher = true →
        (stopWrapper s).2.1.getLast? = some StopAction.stopLauncher) := by
  obtain ⟨th, term, rl⟩ := s
  cases th with
  | none => cases rl <;> simp [stopWrapper, joinAsserts]
  | some t =>
    obtain ⟨ti, ta⟩ := t
    cases ti <;> cases ta <;> cases rl <;>
      simp [stopWrapper, joinAsserts]

/-- Closed-form witness for `stopWrapper_flag_join_launcher` at a concrete
post-launch wrapper state. -/
theorem stopWrapper_flag_join_launcher_witness :
    (stopWrapper wsFix).1.wrapperTermination = true
    ∧ StopAction.joinThread ∈ (stopWrapper wsFix).2.1
    ∧ (stopWrapper wsFix).2.1.getLast? = some StopAction.stopLauncher := by
  have h := stopWrapper_flag_join_launcher wsFix
  exact ⟨h.1, h.2.1.mpr ⟨_, rfl, rfl, rfl⟩, h.2.2.2 rfl⟩

/-- C2: on every loop iteration run with the termination flag unset, the spin
body publishes a JointState built from the simulator's joint positions, a
LaserScan built from the simulator's laser values when the laser manager is
active, the odom transform and the Odometry message built from the
simulator's base position and velocity, and the active camera's frame as an
Image with its CameraInfo when an active camera with a frame exists. -/
theorem spin_publishes_sensor_state (pb : PyBullet) (s : SimState) :
    Output.jointState (getJointStateMsg s) ∈ spinTick pb s
    ∧ (s.laserActive = true → Output.laserScan (laserScanMsgOf s) ∈ spinTick pb s)
    ∧ Output.odomTf (odomTransformMsg pb s) ∈ spinTick pb s
    ∧ Output.odom (odometryMsg pb s) ∈ spinTick pb s
    ∧ (∀ c f, s.activeCamera = some c → c.frame = some f →
        Output.image c.cameraId (cameraImageMsg c f) ∈ spinTick pb s
        ∧ Output.cameraInfo c.cameraId (cameraInfoMsg c) ∈ spinTick pb s)
    ∧ (∀ rest, spinLoopBatches pb ((false, TickObs.ok s) :: rest)
        = spinIter pb s :: spinLoopBatches pb rest)
    ∧ (∀ o, Event.pub o ∈ spinIter pb s ↔ o ∈ spinTick pb s) := by
  refine ⟨by simp [spinTick], ?_, by simp [spinTick, broadcastOdom],
    by simp [spinTick, broadcastOdom], ?_, ?_, ?_⟩
  · intro h
    simp [spinTick, updateLasers, h]
  · intro c f hc hf
    constructor <;>
      simp [spinTick, broadcastCamera, broadcastCameraAsserts, hc, hf]
  · intro rest
    simp [spinLoopBatches]
  · intro o
    simp [spinIter]

/-- Closed-form witness for `spin_publishes_sensor_state` at a concrete
snapshot with an active laser and an active camera carrying a frame. -/
theorem spin_publishes_sensor_state_witness :
    simFix.laserActive = true
    ∧ simFix.activeCamera = some camFix
    ∧ camFix.frame = some 7
    ∧ Output.jointState (getJointStateMsg simFix) ∈ spinTick pbFix simFix
    ∧ Output.laserScan (laserScanMsgOf simFix) ∈ spinTick pbFix simFix
    ∧ Output.image camFix.cameraId (cameraImageMsg camFix 7) ∈ spinTick pbFix simFix := by
  have h := spin_publishes_sensor_state pbFix simFix
  exact ⟨rfl, rfl, rfl, h.1, h.2.1 rfl, (h.2.2.2.2.1 camFix 7 rfl rfl).1⟩

/-- C7: the wrapper holds no sensor state of its own: the batch of messages
published on the i-th loop iteration is a function of the simulator snapshot
read on that very iteration, whatever was observed on earlier ticks. -/
theorem spin_reads_state_per_tick (pb : PyBullet) (obs : List (Bool × TickObs))
    (i : Nat) (s : SimState)
    (hpre : ∀ j, j < i → ∃ st, obs.get? j = some (false, TickObs.ok st))
    (hi : obs.get? i = some (false, TickObs.ok s)) :
    (spinLoopBatches pb obs).get? i = some (spinIter pb s) := by
  induction obs generalizing i with
  | nil => simp at hi
  | cons p rest ih =>
    cases i with
    | zero =>
      have hp : p = (false, TickObs.ok s) := by
        simpa using hi
      subst hp
      simp [spinLoopBatches]
    | succ n =>
      obtain ⟨st, hst⟩ := hpre 0 (Nat.succ_pos n)
      have hp : p = (false, TickObs.ok st) := by
        simpa using hst
      subst hp
      have hrec := ih n
        (fun j hj => by simpa using hpre (j + 1) (by omega))
        (by simpa using hi)
      simpa [spinLoopBatches] using hrec

/-- Closed-form witness for `spin_reads_state_per_tick`: on a two-tick run the
second batch is the spin iteration of the second snapshot. -/
theorem spin_reads_state_per_tick_witness :
    (spinLoopBatches pbFix
        [(false, TickObs.ok simQuiet), (false, TickObs.ok simFix)]).get? 1
      = some (spinIter pbFix simFix) := by
  apply spin_reads_state_per_tick pbFix
    [(false, TickObs.ok simQuiet), (false, TickObs.ok simFix)] 1 simFix
  · intro j hj
    have hj0 : j = 0 := by omega
    subst hj0
    exact ⟨simQuiet, rfl⟩
  · rfl

/-- C4 as stated is refuted by this counterexample: with the termination flag
never set, a loop body that raises on the first iteration ends the loop (the
trailing `except Exception` handler prints and falls out of `_spin`), so the
second false-flag iteration is never run; the loop does not terminate only
when the flag is set. -/
theorem spin_flag_only_termination_cex :
    ¬ (spinLoopBatches pbFix
          [(false, TickObs.raises "boom"), (false, TickObs.ok simQuiet)]
        = (([(false, TickObs.raises "boom"),
             (false, TickObs.ok simQuiet)]).takeWhile (fun p => !p.1)).map
            (fun p => spinIterObs pbFix p.2)) := by
  intro h
  have hlen := congrArg List.length h
  simp [spinLoopBatches, List.takeWhile] at hlen

/-- C4 amended: the worker loop sleeps first and then publishes on each
iteration, stops before running the body when the termination flag is read as
set, and — provided no iteration raises — runs exactly one iteration per
false-flag read, so that absent exceptions it terminates exactly when the
flag is set. -/
theorem spin_loop_fixed_rate (pb : PyBullet) :
    (∀ s, spinIter pb s = Event.sleep :: (spinTick pb s).map Event.pub)
    ∧ (∀ o rest, spinLoopBatches pb ((true, o) :: rest) = [])
    ∧ (∀ obs, (∀ p ∈ obs, ∀ m, p.2 ≠ TickObs.raises m) →
        spinLoopBatches pb obs
          = (obs.takeWhile (fun p => !p.1)).map (fun p => spinIterObs pb p.2)) := by
  refine ⟨fun s => rfl, fun o rest => by simp [spinLoopBatches], ?_⟩
  intro obs
  induction obs with
  | nil => intro _; rfl
  | cons p rest ih =>
    intro h
    obtain ⟨flag, o⟩ := p
    cases flag with
    | true => simp [spinLoopBatches, List.takeWhile]
    | false =>
      cases o with
      | ok s =>
        have ih2 := ih fun q hq m => h q (List.mem_cons_of_mem _ hq) m
        simp [spinLoopBatches, List.takeWhile, spinIterObs, ih2]
      | raises m =>
        exact absurd rfl (h (false, TickObs.raises m) (List.mem_cons_self _ _) m)

/-- Closed-form witness for `spin_loop_fixed_rate`: a run that reads the flag
false once and then true performs exactly one iteration. -/
theorem spin_loop_fixed_rate_witness :
    spinLoopBatches pbFix
        [(false, TickObs.ok simQuiet), (true, TickObs.ok simQuiet)]
      = [spinIter pbFix simQuiet] := by
  have h := (spin_loop_fixed_rate pbFix).2.2
    [(false, TickObs.ok simQuiet), (true, TickObs.ok simQuiet)]
    (by
      intro p hp m
      rcases List.mem_cons.mp hp with h1 | h1
      · subst h1; simp
      · rcases List.mem_cons.mp h1 with h2 | h2
        · subst h2; simp
        · simp at h2)
  rw [h]
  rfl

/-- Decides whether an embedded operation result propagates an error to its
caller. -/
def raisesToCaller : Except PyError WrapperState → Bool
  | Except.error _ => true
  | Except.ok _ => false

/-- C3 as stated is refuted by this counterexample: the constructor
deliberately propagates a `pybullet.error` to its caller when the ROS-stack
imports failed at module load, so not every error is swallowed locally. -/
theorem errors_all_swallowed_cex :
    raisesToCaller (rosWrapperInit (some "No module named rospy")) = true := rfl

/-- C3 amended: errors are swallowed only at the wrapper's designated
handlers — the spin loop catches any exception escaping its body and ends
with a best-effort print, `_broadcastCamera` swallows its assertion failures
and publishes nothing, and `stopWrapper` swallows an assertion failure of its
thread checks by skipping the join — while the constructor and
`launchWrapper` propagate a `pybullet.error` carrying the import-error
message when the ROS-stack import failed. -/
theorem error_swallowing_policy :
    (∀ m, rosWrapperInit (some m) = Except.error { msg := m })
    ∧ (∀ m io s ns, launchWrapper (some m) io s ns = Except.error { msg := m })
    ∧ (∀ pb m rest, spinLoopBatches pb ((false, TickObs.raises m) :: rest)
        = [[Event.sleep, Event.printed ("Stopping the ROS wrapper: " ++ m)]])
    ∧ (∀ s e, broadcastCameraAsserts s = Except.error e → broadcastCamera s = [])
    ∧ (∀ w, joinAsserts { w with wrapperTermination := true }
          = Except.error PyExn.assertionError →
        StopAction.joinThread ∉ (stopWrapper w).2.1) := by
  refine ⟨fun m => rfl, fun m io s ns => rfl, fun pb m rest => by simp [spinLoopBatches],
    ?_, ?_⟩
  · intro s e h
    simp [broadcastCamera, h]
  · intro w h
    obtain ⟨th, term, rl⟩ := w
    simp only [stopWrapper] at *
    rw [h]
    cases rl <;> simp

/-- Closed-form witness for `error_swallowing_policy` at concrete inputs: a
concrete import error propagates from the constructor, a concrete raising
iteration ends the loop with the handler's print, and a snapshot without an
active camera publishes no camera message. -/
theorem error_swallowing_policy_witness :
    rosWrapperInit (some "No module named tf2_ros")
      = Except.error { msg := "No module named tf2_ros" }
    ∧ spinLoopBatches pbFix [(false, TickObs.raises "boom")]
      = [[Event.sleep, Event.printed "Stopping the ROS wrapper: boom"]]
    ∧ broadcastCamera simQuiet = [] := by
  have h := error_swallowing_policy
  refine ⟨h.1 _, ?_, h.2.2.2.1 simQuiet PyExn.assertionError rfl⟩
  have hb := h.2.2.1 pbFix "boom" []
  simpa using hb

end QiBullet
